import Mathlib

/-!
Verification of RocketSimPy against its natural-language specification.

Shallow embedding notes:
- Bytes are `Nat` values; the C++ `uint8_t` range is tracked explicitly.
- Machine integers (`uint8_t`, `uint32_t`, `uint64_t`) are `Nat` with explicit
  `% 2^w` where the code truncates.
- 32-bit floats in the wire format (`RLViserSocket.h`) are transported by bit
  pattern only (`memcpy` both ways), so they are modelled as their 32-bit
  patterns (`Nat < 2^32`); this makes "bit-exact" literal.
- The C++ `ByteReader` keeps `(data, pos)` and never mutates `data`; we model
  the reader state by the remaining suffix of the byte list, which is the same
  thing up to `List.drop pos`.  Each `read_*` that runs out of data returns 0
  and consumes nothing, exactly as the `has_remaining` guards do.
-/

namespace RLViser

/-- A 3-float vector; each float carried as its 32-bit pattern. -/
structure Vec where
  x : Nat
  y : Nat
  z : Nat
deriving DecidableEq, Repr

/-- Row-wise rotation matrix: forward, right, up. -/
structure RotMat where
  forward : Vec
  right : Vec
  up : Vec
deriving DecidableEq, Repr

/-- ByteWriter.write_u8: pushes one byte (the `uint8_t` parameter truncates). -/
def write_u8 (v : Nat) : List Nat := [v % 256]

/-- ByteWriter.write_u32: four bytes, little-endian (`(val >> 8*i) & 0xFF`). -/
def write_u32 (v : Nat) : List Nat :=
  [v % 256, v / 2 ^ 8 % 256, v / 2 ^ 16 % 256, v / 2 ^ 24 % 256]

/-- ByteWriter.write_u64: eight bytes, little-endian. -/
def write_u64 (v : Nat) : List Nat :=
  [v % 256, v / 2 ^ 8 % 256, v / 2 ^ 16 % 256, v / 2 ^ 24 % 256,
   v / 2 ^ 32 % 256, v / 2 ^ 40 % 256, v / 2 ^ 48 % 256, v / 2 ^ 56 % 256]

/-- ByteWriter.write_f32: memcpy of the float's bits, then write_u32. -/
def write_f32 (v : Nat) : List Nat := write_u32 v

/-- ByteWriter.write_bool: one byte, 1 or 0. -/
def write_bool (b : Bool) : List Nat := write_u8 (if b then 1 else 0)

/-- ByteWriter.write_vec: x, y, z. -/
def write_vec (v : Vec) : List Nat := write_f32 v.x ++ write_f32 v.y ++ write_f32 v.z

/-- ByteWriter.write_rot_mat: forward, right, up. -/
def write_rot_mat (m : RotMat) : List Nat :=
  write_vec m.forward ++ write_vec m.right ++ write_vec m.up

/-- ByteReader.read_u8: one byte, or 0 without consuming when out of data. -/
def read_u8 : List Nat → Nat × List Nat
  | [] => (0, [])
  | b :: rest => (b, rest)

/-- ByteReader.read_u32: four little-endian bytes OR-ed at disjoint offsets
(addition, since each byte is below 256), or 0 without consuming. -/
def read_u32 : List Nat → Nat × List Nat
  | b0 :: b1 :: b2 :: b3 :: rest =>
      (b0 + b1 * 2 ^ 8 + b2 * 2 ^ 16 + b3 * 2 ^ 24, rest)
  | l => (0, l)

/-- ByteReader.read_u64: eight little-endian bytes, or 0 without consuming. -/
def read_u64 : List Nat → Nat × List Nat
  | b0 :: b1 :: b2 :: b3 :: b4 :: b5 :: b6 :: b7 :: rest =>
      (b0 + b1 * 2 ^ 8 + b2 * 2 ^ 16 + b3 * 2 ^ 24 + b4 * 2 ^ 32 + b5 * 2 ^ 40 +
        b6 * 2 ^ 48 + b7 * 2 ^ 56, rest)
  | l => (0, l)

/-- ByteReader.read_f32: the float whose bits are read_u32. -/
def read_f32 (l : List Nat) : Nat × List Nat := read_u32 l

/-- ByteReader.read_bool: read_u8 != 0. -/
def read_bool (l : List Nat) : Bool × List Nat :=
  let (v, l') := read_u8 l
  (v != 0, l')

/-- ByteReader.read_vec: x, y, z. -/
def read_vec (l : List Nat) : Vec × List Nat :=
  let (x, l1) := read_f32 l
  let (y, l2) := read_f32 l1
  let (z, l3) := read_f32 l2
  (⟨x, y, z⟩, l3)

/-- ByteReader.read_rot_mat: forward, right, up. -/
def read_rot_mat (l : List Nat) : RotMat × List Nat :=
  let (f, l1) := read_vec l
  let (r, l2) := read_vec l1
  let (u, l3) := read_vec l2
  (⟨f, r, u⟩, l3)

/-- WorldContact sub-record of CarState. -/
structure WorldContact where
  hasContact : Bool
  contactNormal : Vec
deriving DecidableEq, Repr

/-- CarContact sub-record of CarState. -/
structure CarContact where
  otherCarID : Nat
  cooldownTimer : Nat
deriving DecidableEq, Repr

/-- BallHitInfo sub-record of CarState; the two tick counters are u64. -/
structure BallHitInfo where
  isValid : Bool
  relativePosOnBall : Vec
  ballPos : Vec
  extraHitVel : Vec
  tickCountWhenHit : Nat
  tickCountWhenExtraImpulseApplied : Nat
deriving DecidableEq, Repr

/-- CarControls as serialized in the lastControls block. -/
structure CarControls where
  throttle : Nat
  steer : Nat
  pitch : Nat
  yaw : Nat
  roll : Nat
  boost : Bool
  jump : Bool
  handbrake : Bool
deriving DecidableEq, Repr

/-- One wheel pair (front or back) of the CarConfig. -/
structure WheelPairConfig where
  wheelRadius : Nat
  suspensionRestLength : Nat
  connectionPointOffset : Vec
deriving DecidableEq, Repr

/-- CarConfig as serialized. -/
structure CarConfig where
  hitboxSize : Vec
  hitboxPosOffset : Vec
  frontWheels : WheelPairConfig
  backWheels : WheelPairConfig
  dodgeDeadzone : Nat
deriving DecidableEq, Repr

/-- CarState, fields in the serialization order of CarInfo::write.
The four wheelsWithContact booleans are the array entries 0..3. -/
structure CarState where
  pos : Vec
  rotMat : RotMat
  vel : Vec
  angVel : Vec
  isOnGround : Bool
  wheelsWithContact0 : Bool
  wheelsWithContact1 : Bool
  wheelsWithContact2 : Bool
  wheelsWithContact3 : Bool
  hasJumped : Bool
  hasDoubleJumped : Bool
  hasFlipped : Bool
  flipRelTorque : Vec
  jumpTime : Nat
  flipTime : Nat
  isFlipping : Bool
  isJumping : Bool
  airTime : Nat
  airTimeSinceJump : Nat
  boost : Nat
  timeSinceBoosted : Nat
  isBoosting : Bool
  boostingTime : Nat
  isSupersonic : Bool
  supersonicTime : Nat
  handbrakeVal : Nat
  isAutoFlipping : Bool
  autoFlipTimer : Nat
  autoFlipTorqueScale : Nat
  worldContact : WorldContact
  carContact : CarContact
  isDemoed : Bool
  demoRespawnTimer : Nat
  ballHitInfo : BallHitInfo
  lastControls : CarControls
deriving DecidableEq, Repr

/-- CarInfo: id (u32), team (u8), full car state and config. -/
structure CarInfo where
  id : Nat
  team : Nat
  state : CarState
  config : CarConfig
deriving DecidableEq, Repr

namespace CarInfo

/-- CarInfo::NUM_BYTES, the literal sum from the source. -/
def NUM_BYTES : Nat :=
  4 + 1 +
  12 + 36 + 12 + 12 + 1 + 4 + 1 + 1 + 1 + 12 + 4 + 4 + 1 + 1 + 4 + 4 + 4 + 4 +
  1 + 4 + 1 + 4 + 4 + 1 + 4 + 4 + 1 + 12 + 4 + 4 + 1 + 4 +
  1 + 12 + 12 + 12 + 8 + 8 +
  4 + 4 + 4 + 4 + 4 + 1 + 1 + 1 +
  12 + 12 + 4 + 4 + 12 + 4 + 4 + 12 + 4

/-- CarInfo::write. -/
def write (c : CarInfo) : List Nat :=
  write_u32 c.id ++
  write_u8 c.team ++
  write_vec c.state.pos ++
  write_rot_mat c.state.rotMat ++
  write_vec c.state.vel ++
  write_vec c.state.angVel ++
  write_bool c.state.isOnGround ++
  write_bool c.state.wheelsWithContact0 ++
  write_bool c.state.wheelsWithContact1 ++
  write_bool c.state.wheelsWithContact2 ++
  write_bool c.state.wheelsWithContact3 ++
  write_bool c.state.hasJumped ++
  write_bool c.state.hasDoubleJumped ++
  write_bool c.state.hasFlipped ++
  write_vec c.state.flipRelTorque ++
  write_f32 c.state.jumpTime ++
  write_f32 c.state.flipTime ++
  write_bool c.state.isFlipping ++
  write_bool c.state.isJumping ++
  write_f32 c.state.airTime ++
  write_f32 c.state.airTimeSinceJump ++
  write_f32 c.state.boost ++
  write_f32 c.state.timeSinceBoosted ++
  write_bool c.state.isBoosting ++
  write_f32 c.state.boostingTime ++
  write_bool c.state.isSupersonic ++
  write_f32 c.state.supersonicTime ++
  write_f32 c.state.handbrakeVal ++
  write_bool c.state.isAutoFlipping ++
  write_f32 c.state.autoFlipTimer ++
  write_f32 c.state.autoFlipTorqueScale ++
  write_bool c.state.worldContact.hasContact ++
  write_vec c.state.worldContact.contactNormal ++
  write_u32 c.state.carContact.otherCarID ++
  write_f32 c.state.carContact.cooldownTimer ++
  write_bool c.state.isDemoed ++
  write_f32 c.state.demoRespawnTimer ++
  write_bool c.state.ballHitInfo.isValid ++
  write_vec c.state.ballHitInfo.relativePosOnBall ++
  write_vec c.state.ballHitInfo.ballPos ++
  write_vec c.state.ballHitInfo.extraHitVel ++
  write_u64 c.state.ballHitInfo.tickCountWhenHit ++
  write_u64 c.state.ballHitInfo.tickCountWhenExtraImpulseApplied ++
  write_f32 c.state.lastControls.throttle ++
  write_f32 c.state.lastControls.steer ++
  write_f32 c.state.lastControls.pitch ++
  write_f32 c.state.lastControls.yaw ++
  write_f32 c.state.lastControls.roll ++
  write_bool c.state.lastControls.boost ++
  write_bool c.state.lastControls.jump ++
  write_bool c.state.lastControls.handbrake ++
  write_vec c.config.hitboxSize ++
  write_vec c.config.hitboxPosOffset ++
  write_f32 c.config.frontWheels.wheelRadius ++
  write_f32 c.config.frontWheels.suspensionRestLength ++
  write_vec c.config.frontWheels.connectionPointOffset ++
  write_f32 c.config.backWheels.wheelRadius ++
  write_f32 c.config.backWheels.suspensionRestLength ++
  write_vec c.config.backWheels.connectionPointOffset ++
  write_f32 c.config.dodgeDeadzone

/-- CarInfo::read. -/
def read (l : List Nat) : CarInfo × List Nat :=
  let (id, l) := read_u32 l
  let (team, l) := read_u8 l
  let (pos, l) := read_vec l
  let (rotMat, l) := read_rot_mat l
  let (vel, l) := read_vec l
  let (angVel, l) := read_vec l
  let (isOnGround, l) := read_bool l
  let (w0, l) := read_bool l
  let (w1, l) := read_bool l
  let (w2, l) := read_bool l
  let (w3, l) := read_bool l
  let (hasJumped, l) := read_bool l
  let (hasDoubleJumped, l) := read_bool l
  let (hasFlipped, l) := read_bool l
  let (flipRelTorque, l) := read_vec l
  let (jumpTime, l) := read_f32 l
  let (flipTime, l) := read_f32 l
  let (isFlipping, l) := read_bool l
  let (isJumping, l) := read_bool l
  let (airTime, l) := read_f32 l
  let (airTimeSinceJump, l) := read_f32 l
  let (boost, l) := read_f32 l
  let (timeSinceBoosted, l) := read_f32 l
  let (isBoosting, l) := read_bool l
  let (boostingTime, l) := read_f32 l
  let (isSupersonic, l) := read_bool l
  let (supersonicTime, l) := read_f32 l
  let (handbrakeVal, l) := read_f32 l
  let (isAutoFlipping, l) := read_bool l
  let (autoFlipTimer, l) := read_f32 l
  let (autoFlipTorqueScale, l) := read_f32 l
  let (wcHasContact, l) := read_bool l
  let (wcContactNormal, l) := read_vec l
  let (ccOtherCarID, l) := read_u32 l
  let (ccCooldownTimer, l) := read_f32 l
  let (isDemoed, l) := read_bool l
  let (demoRespawnTimer, l) := read_f32 l
  let (bhIsValid, l) := read_bool l
  let (bhRelativePosOnBall, l) := read_vec l
  let (bhBallPos, l) := read_vec l
  let (bhExtraHitVel, l) := read_vec l
  let (bhTickCountWhenHit, l) := read_u64 l
  let (bhTickCountWhenExtraImpulseApplied, l) := read_u64 l
  let (ctThrottle, l) := read_f32 l
  let (ctSteer, l) := read_f32 l
  let (ctPitch, l) := read_f32 l
  let (ctYaw, l) := read_f32 l
  let (ctRoll, l) := read_f32 l
  let (ctBoost, l) := read_bool l
  let (ctJump, l) := read_bool l
  let (ctHandbrake, l) := read_bool l
  let (hitboxSize, l) := read_vec l
  let (hitboxPosOffset, l) := read_vec l
  let (fwWheelRadius, l) := read_f32 l
  let (fwSuspensionRestLength, l) := read_f32 l
  let (fwConnectionPointOffset, l) := read_vec l
  let (bwWheelRadius, l) := read_f32 l
  let (bwSuspensionRestLength, l) := read_f32 l
  let (bwConnectionPointOffset, l) := read_vec l
  let (dodgeDeadzone, l) := read_f32 l
  (⟨id, team,
    ⟨pos, rotMat, vel, angVel, isOnGround, w0, w1, w2, w3, hasJumped,
     hasDoubleJumped, hasFlipped, flipRelTorque, jumpTime, flipTime, isFlipping,
     isJumping, airTime, airTimeSinceJump, boost, timeSinceBoosted, isBoosting,
     boostingTime, isSupersonic, supersonicTime, handbrakeVal, isAutoFlipping,
     autoFlipTimer, autoFlipTorqueScale, ⟨wcHasContact, wcContactNormal⟩,
     ⟨ccOtherCarID, ccCooldownTimer⟩, isDemoed, demoRespawnTimer,
     ⟨bhIsValid, bhRelativePosOnBall, bhBallPos, bhExtraHitVel,
      bhTickCountWhenHit, bhTickCountWhenExtraImpulseApplied⟩,
     ⟨ctThrottle, ctSteer, ctPitch, ctYaw, ctRoll, ctBoost, ctJump, ctHandbrake⟩⟩,
    ⟨hitboxSize, hitboxPosOffset,
     ⟨fwWheelRadius, fwSuspensionRestLength, fwConnectionPointOffset⟩,
     ⟨bwWheelRadius, bwSuspensionRestLength, bwConnectionPointOffset⟩,
     dodgeDeadzone⟩⟩, l)

end CarInfo

/-- BoostPadInfo. -/
structure BoostPadInfo where
  isActive : Bool
  cooldown : Nat
  pos : Vec
  isBig : Bool
deriving DecidableEq, Repr

namespace BoostPadInfo

/-- BoostPadInfo::NUM_BYTES. -/
def NUM_BYTES : Nat := 1 + 4 + 12 + 1

/-- BoostPadInfo::write. -/
def write (p : BoostPadInfo) : List Nat :=
  write_bool p.isActive ++ write_f32 p.cooldown ++ write_vec p.pos ++ write_bool p.isBig

/-- BoostPadInfo::read. -/
def read (l : List Nat) : BoostPadInfo × List Nat :=
  let (isActive, l) := read_bool l
  let (cooldown, l) := read_f32 l
  let (pos, l) := read_vec l
  let (isBig, l) := read_bool l
  (⟨isActive, cooldown, pos, isBig⟩, l)

end BoostPadInfo

/-- Heatseeker info inside the serialized ball state. -/
structure HeatseekerInfo where
  yTargetDir : Nat
  curTargetSpeed : Nat
  timeSinceHit : Nat
deriving DecidableEq, Repr

/-- BallStateInfo: kinematics plus heatseeker info. -/
structure BallStateInfo where
  pos : Vec
  rotMat : RotMat
  vel : Vec
  angVel : Vec
  hsInfo : HeatseekerInfo
deriving DecidableEq, Repr

namespace BallStateInfo

/-- BallStateInfo::write. -/
def write (b : BallStateInfo) : List Nat :=
  write_vec b.pos ++ write_rot_mat b.rotMat ++ write_vec b.vel ++ write_vec b.angVel ++
  write_f32 b.hsInfo.yTargetDir ++ write_f32 b.hsInfo.curTargetSpeed ++
  write_f32 b.hsInfo.timeSinceHit

/-- BallStateInfo::read. -/
def read (l : List Nat) : BallStateInfo × List Nat :=
  let (pos, l) := read_vec l
  let (rotMat, l) := read_rot_mat l
  let (vel, l) := read_vec l
  let (angVel, l) := read_vec l
  let (yTargetDir, l) := read_f32 l
  let (curTargetSpeed, l) := read_f32 l
  let (timeSinceHit, l) := read_f32 l
  (⟨pos, rotMat, vel, angVel, ⟨yTargetDir, curTargetSpeed, timeSinceHit⟩⟩, l)

end BallStateInfo

/-- GameState: the full mirror-protocol payload. -/
structure GameState where
  tickCount : Nat
  tickRate : Nat
  gameMode : Nat
  pads : List BoostPadInfo
  cars : List CarInfo
  ball : BallStateInfo
deriving DecidableEq, Repr

namespace GameState

/-- GameState::MIN_NUM_BYTES: the fixed header. -/
def MIN_NUM_BYTES : Nat := 8 + 4 + 1 + 4 + 4

/-- Ball-block size constant from GameState::get_num_bytes. -/
def BALL_STATE_BYTES : Nat := 12 + 36 + 12 + 12 + 12

/-- GameState::to_bytes: header, ball, pads, cars. -/
def to_bytes (g : GameState) : List Nat :=
  write_u64 g.tickCount ++
  write_f32 g.tickRate ++
  write_u8 g.gameMode ++
  write_u32 g.pads.length ++
  write_u32 g.cars.length ++
  g.ball.write ++
  (g.pads.map BoostPadInfo.write).flatten ++
  (g.cars.map CarInfo.write).flatten

/-- The pad-reading loop of GameState::from_bytes. -/
def read_pads : Nat → List Nat → List BoostPadInfo × List Nat
  | 0, l => ([], l)
  | n + 1, l =>
      let (p, l1) := BoostPadInfo.read l
      let (ps, l2) := read_pads n l1
      (p :: ps, l2)

/-- The car-reading loop of GameState::from_bytes. -/
def read_cars : Nat → List Nat → List CarInfo × List Nat
  | 0, l => ([], l)
  | n + 1, l =>
      let (c, l1) := CarInfo.read l
      let (cs, l2) := read_cars n l1
      (c :: cs, l2)

/-- GameState::from_bytes. -/
def from_bytes (l : List Nat) : GameState :=
  let (tickCount, l) := read_u64 l
  let (tickRate, l) := read_f32 l
  let (gameMode, l) := read_u8 l
  let (num_pads, l) := read_u32 l
  let (num_cars, l) := read_u32 l
  let (ball, l) := BallStateInfo.read l
  let (pads, l) := read_pads num_pads l
  let (cars, _) := read_cars num_cars l
  ⟨tickCount, tickRate, gameMode, pads, cars, ball⟩

/-- GameState::get_num_bytes: total size computed from the header counts. -/
def get_num_bytes (l : List Nat) : Nat :=
  if l.length < MIN_NUM_BYTES then 0 else
  let (_, l1) := read_u64 l
  let (_, l2) := read_f32 l1
  let (_, l3) := read_u8 l2
  let (num_pads, l4) := read_u32 l3
  let (num_cars, _) := read_u32 l4
  MIN_NUM_BYTES + BALL_STATE_BYTES +
    num_pads * BoostPadInfo.NUM_BYTES + num_cars * CarInfo.NUM_BYTES

end GameState

/-- Wellformedness of a float bit pattern / u32 field: fits in 32 bits. -/
def WFu32 (n : Nat) : Prop := n < 2 ^ 32

/-- Wellformedness of a u64 field. -/
def WFu64 (n : Nat) : Prop := n < 2 ^ 64

/-- Wellformedness of a u8 field. -/
def WFu8 (n : Nat) : Prop := n < 2 ^ 8

instance : DecidablePred WFu32 := fun n => inferInstanceAs (Decidable (n < 2 ^ 32))
instance : DecidablePred WFu64 := fun n => inferInstanceAs (Decidable (n < 2 ^ 64))
instance : DecidablePred WFu8 := fun n => inferInstanceAs (Decidable (n < 2 ^ 8))

/-- All three components fit in 32 bits. -/
def Vec.WF (v : Vec) : Prop := WFu32 v.x ∧ WFu32 v.y ∧ WFu32 v.z

instance : DecidablePred Vec.WF := fun _v => by unfold Vec.WF; infer_instance

/-- All nine components fit in 32 bits. -/
def RotMat.WF (m : RotMat) : Prop := m.forward.WF ∧ m.right.WF ∧ m.up.WF

instance : DecidablePred RotMat.WF := fun _m => by unfold RotMat.WF; infer_instance

/-- Every numeric field of the car state fits its wire type. -/
def CarState.WF (s : CarState) : Prop :=
  s.pos.WF ∧ s.rotMat.WF ∧ s.vel.WF ∧ s.angVel.WF ∧
  s.flipRelTorque.WF ∧ WFu32 s.jumpTime ∧ WFu32 s.flipTime ∧
  WFu32 s.airTime ∧ WFu32 s.airTimeSinceJump ∧ WFu32 s.boost ∧
  WFu32 s.timeSinceBoosted ∧ WFu32 s.boostingTime ∧ WFu32 s.supersonicTime ∧
  WFu32 s.handbrakeVal ∧ WFu32 s.autoFlipTimer ∧ WFu32 s.autoFlipTorqueScale ∧
  s.worldContact.contactNormal.WF ∧ WFu32 s.carContact.otherCarID ∧
  WFu32 s.carContact.cooldownTimer ∧ WFu32 s.demoRespawnTimer ∧
  s.ballHitInfo.relativePosOnBall.WF ∧ s.ballHitInfo.ballPos.WF ∧
  s.ballHitInfo.extraHitVel.WF ∧ WFu64 s.ballHitInfo.tickCountWhenHit ∧
  WFu64 s.ballHitInfo.tickCountWhenExtraImpulseApplied ∧
  WFu32 s.lastControls.throttle ∧ WFu32 s.lastControls.steer ∧
  WFu32 s.lastControls.pitch ∧ WFu32 s.lastControls.yaw ∧ WFu32 s.lastControls.roll

/-- Every numeric field of the car config fits its wire type. -/
def CarConfig.WF (c : CarConfig) : Prop :=
  c.hitboxSize.WF ∧ c.hitboxPosOffset.WF ∧
  WFu32 c.frontWheels.wheelRadius ∧ WFu32 c.frontWheels.suspensionRestLength ∧
  c.frontWheels.connectionPointOffset.WF ∧
  WFu32 c.backWheels.wheelRadius ∧ WFu32 c.backWheels.suspensionRestLength ∧
  c.backWheels.connectionPointOffset.WF ∧ WFu32 c.dodgeDeadzone

/-- Id fits u32, team fits u8, state and config wellformed. -/
def CarInfo.WF (c : CarInfo) : Prop :=
  WFu32 c.id ∧ WFu8 c.team ∧ c.state.WF ∧ c.config.WF

/-- Cooldown pattern and position fit their wire types. -/
def BoostPadInfo.WF (p : BoostPadInfo) : Prop := WFu32 p.cooldown ∧ p.pos.WF

/-- Every numeric field of the ball block fits its wire type. -/
def BallStateInfo.WF (b : BallStateInfo) : Prop :=
  b.pos.WF ∧ b.rotMat.WF ∧ b.vel.WF ∧ b.angVel.WF ∧
  WFu32 b.hsInfo.yTargetDir ∧ WFu32 b.hsInfo.curTargetSpeed ∧ WFu32 b.hsInfo.timeSinceHit

/-- Header fields fit their wire types, counts fit u32, and every pad and car
record is wellformed. -/
def GameState.WF (g : GameState) : Prop :=
  WFu64 g.tickCount ∧ WFu32 g.tickRate ∧ WFu8 g.gameMode ∧
  g.pads.length < 2 ^ 32 ∧ g.cars.length < 2 ^ 32 ∧
  g.ball.WF ∧ (∀ p ∈ g.pads, p.WF) ∧ (∀ c ∈ g.cars, c.WF)

instance : DecidablePred CarState.WF := fun _s => by unfold CarState.WF; infer_instance

instance : DecidablePred CarConfig.WF := fun _c => by unfold CarConfig.WF; infer_instance

instance : DecidablePred CarInfo.WF := fun _c => by unfold CarInfo.WF; infer_instance

instance : DecidablePred BoostPadInfo.WF := fun _p => by unfold BoostPadInfo.WF; infer_instance

instance : DecidablePred BallStateInfo.WF := fun _b => by unfold BallStateInfo.WF; infer_instance

instance : DecidablePred GameState.WF := fun _g => by unfold GameState.WF; infer_instance

/-- Componentwise reduction of a vector's patterns to 32 bits (what a wire
round trip does to an arbitrary, possibly overflowing, `Vec` model value). -/
def Vec.trunc32 (v : Vec) : Vec := ⟨v.x % 2 ^ 32, v.y % 2 ^ 32, v.z % 2 ^ 32⟩

/-- Componentwise 32-bit reduction of a rotation matrix. -/
def RotMat.trunc32 (m : RotMat) : RotMat :=
  ⟨m.forward.trunc32, m.right.trunc32, m.up.trunc32⟩

/-- A concrete car record used to evaluate the theorems on explicit input. -/
def sampleCar : CarInfo :=
  { id := 7
    team := 1
    state :=
      { pos := ⟨1, 2, 3⟩
        rotMat := ⟨⟨4, 5, 6⟩, ⟨7, 8, 9⟩, ⟨10, 11, 12⟩⟩
        vel := ⟨13, 14, 15⟩
        angVel := ⟨16, 17, 18⟩
        isOnGround := true
        wheelsWithContact0 := true
        wheelsWithContact1 := false
        wheelsWithContact2 := true
        wheelsWithContact3 := true
        hasJumped := false
        hasDoubleJumped := false
        hasFlipped := true
        flipRelTorque := ⟨19, 20, 21⟩
        jumpTime := 22
        flipTime := 23
        isFlipping := false
        isJumping := true
        airTime := 24
        airTimeSinceJump := 25
        boost := 26
        timeSinceBoosted := 27
        isBoosting := false
        boostingTime := 28
        isSupersonic := true
        supersonicTime := 29
        handbrakeVal := 30
        isAutoFlipping := false
        autoFlipTimer := 31
        autoFlipTorqueScale := 32
        worldContact := ⟨true, ⟨33, 34, 35⟩⟩
        carContact := ⟨36, 37⟩
        isDemoed := false
        demoRespawnTimer := 38
        ballHitInfo := ⟨true, ⟨39, 40, 41⟩, ⟨42, 43, 44⟩, ⟨45, 46, 47⟩, 48, 49⟩
        lastControls := ⟨50, 51, 52, 53, 54, true, false, true⟩ }
    config :=
      { hitboxSize := ⟨55, 56, 57⟩
        hitboxPosOffset := ⟨58, 59, 60⟩
        frontWheels := ⟨61, 62, ⟨63, 64, 65⟩⟩
        backWheels := ⟨66, 67, ⟨68, 69, 70⟩⟩
        dodgeDeadzone := 71 } }

/-- A concrete pad record used to evaluate the theorems on explicit input. -/
def samplePad : BoostPadInfo := ⟨true, 100, ⟨101, 102, 103⟩, false⟩

/-- A concrete ball block used to evaluate the theorems on explicit input. -/
def sampleBall : BallStateInfo :=
  ⟨⟨200, 201, 202⟩, ⟨⟨203, 204, 205⟩, ⟨206, 207, 208⟩, ⟨209, 210, 211⟩⟩,
   ⟨212, 213, 214⟩, ⟨215, 216, 217⟩, ⟨218, 219, 220⟩⟩

/-- A concrete game state (one pad, one car) used to evaluate the theorems on
explicit input. -/
def sampleGameState : GameState :=
  { tickCount := 123456
    tickRate := 300
    gameMode := 1
    pads := [samplePad]
    cars := [sampleCar]
    ball := sampleBall }

end RLViser

namespace RocketSim

/-!
Math primitives from `src/Math/Math.cpp` / `Math.h`.

32-bit floats are modelled exactly: the curve code only compares, subtracts,
multiplies and divides its inputs, so it is embedded over `ℚ`;
`WrapNormalizeFloat` is embedded over any linear ordered field with a floor
(used at `ℝ` for the π claim), and the UE3 rounding over `ℝ` since its
constants involve π.
-/

/-- A control point of a piecewise linear curve. -/
structure LinearPieceCurve.Point where
  input : ℚ
  output : ℚ
deriving DecidableEq, Repr

/-- LinearPieceCurve: a fixed-capacity array of control points together with
the count of valid entries.  The C++ fixed array `Point points[8]` is value
initialized to zeroes; reads use `getD` with that zero point as default. -/
structure LinearPieceCurve where
  points : List LinearPieceCurve.Point
  numPoints : Nat
deriving DecidableEq, Repr

namespace LinearPieceCurve

/-- LinearPieceCurve::MAX_POINTS. -/
def MAX_POINTS : Nat := 8

/-- points[i], with the value-initialized zero point when out of range. -/
def pt (c : LinearPieceCurve) (i : Nat) : Point := c.points.getD i ⟨0, 0⟩

/-- The segment body of GetOutput (lines interpolating between `points[i-1]`
and `points[i]`), including the degenerate `dx <= 0` guard. -/
def segmentOutput (before after : Point) (input : ℚ) : ℚ :=
  let dx := after.input - before.input
  if dx ≤ 0 then before.output
  else
    let t := (input - before.input) / dx
    before.output + (after.output - before.output) * t

/-- The search loop of GetOutput: find the first `i ≥ 1` with
`points[i].input > input` and interpolate there; past the end, return the
last point's output. -/
def getOutputLoop (c : LinearPieceCurve) (input : ℚ) (i : Nat) : ℚ :=
  if _h : i < c.numPoints then
    if input < (c.pt i).input then
      segmentOutput (c.pt (i - 1)) (c.pt i) input
    else getOutputLoop c input (i + 1)
  else (c.pt (c.numPoints - 1)).output
termination_by c.numPoints - i

/-- LinearPieceCurve::GetOutput. -/
def GetOutput (c : LinearPieceCurve) (input : ℚ) (defaultOutput : ℚ) : ℚ :=
  if c.numPoints = 0 then defaultOutput
  else if input ≤ (c.pt 0).input then (c.pt 0).output
  else getOutputLoop c input 1

/-- The initializer-list constructor: append pairs while `numPoints <
MAX_POINTS`, silently dropping the rest. -/
def ofInitList (init : List (ℚ × ℚ)) : LinearPieceCurve :=
  init.foldl
    (fun c p =>
      if c.numPoints < MAX_POINTS then
        { points := c.points ++ [⟨p.1, p.2⟩], numPoints := c.numPoints + 1 }
      else c)
    ⟨[], 0⟩

end LinearPieceCurve

/-- Truncation toward zero, the semantics of C's float-to-int cast and of the
`trunc` inside C `fmod`. -/
def truncI {K : Type} [LinearOrderedField K] [FloorRing K] (x : K) : ℤ :=
  if 0 ≤ x then ⌊x⌋ else ⌈x⌉

/-- C `fmod(x, y) = x - trunc(x / y) * y`. -/
def fmod {K : Type} [LinearOrderedField K] [FloorRing K] (x y : K) : K :=
  x - y * (truncI (x / y) : K)

/-- Euler angle record, radians. -/
structure Angle where
  yaw : ℝ
  pitch : ℝ
  roll : ℝ

namespace Math

/-- Math::WrapNormalizeFloat. -/
def WrapNormalizeFloat {K : Type} [LinearOrderedField K] [FloorRing K]
    (val minmax : K) : K :=
  let result := fmod val (minmax * 2)
  if minmax < result then result - minmax * 2
  else if result < -minmax then result + minmax * 2
  else result

/-- Math::RoundAngleUE3.  `TO_INTS = 2^15 / π`; the `(int)` cast truncates
toward zero (`truncI`); `>> 2` on a two's-complement int is an arithmetic
shift, i.e. floor division by 4 (`Int.fdiv`); `& (0x4000 - 1)` keeps the low
14 bits, i.e. the nonnegative residue modulo 0x4000 (`Int.emod`). -/
noncomputable def RoundAngleUE3 (ang : Angle) : Angle :=
  let TO_INTS : ℝ := 2 ^ 15 / Real.pi
  let BACK_TO_RADIANS : ℝ := (1 / TO_INTS) * 4
  let rYaw : ℤ := (Int.fdiv (truncI (ang.yaw * TO_INTS)) 4).emod 0x4000
  let rPitch : ℤ := (Int.fdiv (truncI (ang.pitch * TO_INTS)) 4).emod 0x4000
  { yaw := (rYaw : ℝ) * BACK_TO_RADIANS,
    pitch := (rPitch : ℝ) * BACK_TO_RADIANS,
    roll := ang.roll }

/-- Math::RandInt.  Both branches compute `min + engine() % (max - min)` in
the engine's unsigned arithmetic; the engine draw (of the seeded temporary
engine, or of the thread-local engine when `seed == -1`) is abstracted as the
parameter `engineDraw`, since the bound claim holds for every draw. -/
def RandInt (min max : ℤ) (_seed : ℤ) (engineDraw : ℕ) : ℤ :=
  min + ((engineDraw % (max - min).toNat : ℕ) : ℤ)

end Math

end RocketSim

namespace Bindings

/-!
Models of the scripting-surface logic in `python/src/bindings.cpp`.
Python-level failure (`throw` of a C++ exception surfacing as a Python
error) is modelled with `Except String`; an `Except.error` result constructs
nothing and leaves every caller-visible state unchanged.
-/

/-- The ArenaWrapper constructor's tick-rate validation: it throws
`std::invalid_argument` before `Arena::Create` runs, so on failure no arena
object is constructed.  The constructed arena is represented by its tick
rate. -/
def ArenaWrapper.construct (tick_rate : ℚ) : Except String ℚ :=
  if tick_rate < 15 ∨ tick_rate > 120 then
    Except.error "tick_rate must be between 15 and 120"
  else Except.ok tick_rate

/-- A car as held by the arena: its arena-local id and team. -/
structure Car where
  id : Nat
  team : Nat
deriving DecidableEq, Repr

/-- An ArenaWrapper's caller-visible car data: the arena's car set and the
ids having car_stats entries. -/
structure ArenaState where
  cars : List Car
  car_stats : List Nat
deriving DecidableEq, Repr

/-- Modelled from the spec: `Arena::GetCar(id)` — its body is in Arena.cpp,
which is not among the sources; per §3 the car set is keyed by u32 id and per
§7 an unknown id is CarNotFound, so GetCar returns the car with the given id
and null (`none`) when no car has it. -/
def Arena.GetCar (cars : List Car) (id : Nat) : Option Car :=
  cars.find? (fun c => c.id == id)

/-- Modelled from the spec: `Arena::RemoveCar` — its body is in Arena.cpp,
which is not among the sources; per §3 cars are removed dynamically from the
id-keyed car set, so it erases the car with that id. -/
def Arena.RemoveCar (cars : List Car) (id : Nat) : List Car :=
  cars.filter (fun c => c.id != id)

/-- The remove_car binding, id overload: `GetCar`, throw
`std::invalid_argument` when null — before anything is erased — else erase
the stats entry and `RemoveCar`. -/
def ArenaWrapper.remove_car (st : ArenaState) (id : Nat) : Except String ArenaState :=
  match Arena.GetCar st.cars id with
  | none => Except.error ("No car with id " ++ toString id)
  | some car =>
      Except.ok
        { cars := Arena.RemoveCar st.cars car.id,
          car_stats := st.car_stats.filter (fun j => j != car.id) }

/-- The get_car_from_id binding: the found car, else the caller-provided
default object (an arbitrary Python value, modelled as `Option Car`). -/
def ArenaWrapper.get_car_from_id (st : ArenaState) (id : Nat)
    (default : Option Car) : Option Car :=
  match Arena.GetCar st.cars id with
  | some car => some car
  | none => default

/-- An element of the Python list handed to multi_step: an Arena object
(identified by an id, duplicates meaning the same object twice) or a value of
any other type. -/
inductive MSItem where
  | arena (id : Nat)
  | other
deriving DecidableEq, Repr

/-- The validation loop of the multi_step binding: reject any non-Arena item,
reject duplicates via the `seen` set, collect the arenas in order.  It runs to
completion before any stepping happens. -/
def validateArenas : List MSItem → List Nat → Except String (List Nat)
  | [], _ => Except.ok []
  | MSItem.other :: _, _ =>
      Except.error "Unexpected type in arenas list - expected Arena objects"
  | MSItem.arena id :: rest, seen =>
      if id ∈ seen then Except.error "Duplicate arena detected in multi_step"
      else (validateArenas rest (id :: seen)).map (fun ids => id :: ids)

/-- `arena->step_internal(ticks)` for one arena: its tick count advances by
`ticks` (§4.8: tickCount after Step(n) is the prior value plus n). -/
def step_internal (ticks : Nat) (tickCounts : Nat → Nat) (id : Nat) : Nat → Nat :=
  fun j => if j = id then tickCounts j + ticks else tickCounts j

/-- The multi_step binding: validate the entire argument list first (throwing
before any arena is stepped), then step every collected arena exactly once. -/
def multi_step (items : List MSItem) (ticks : Nat) (tickCounts : Nat → Nat) :
    Except String (Nat → Nat) :=
  match validateArenas items [] with
  | Except.error e => Except.error e
  | Except.ok ids => Except.ok (ids.foldl (step_internal ticks) tickCounts)

/-- The arena ids occurring in a multi_step argument list, in order. -/
def arenaIds : List MSItem → List Nat
  | [] => []
  | MSItem.arena id :: rest => id :: arenaIds rest
  | MSItem.other :: rest => arenaIds rest

end Bindings

namespace RLViser

/-! Encode-then-decode lemmas for the wire primitives. -/

theorem read_u8_write (v : Nat) (rest : List Nat) :
    read_u8 (write_u8 v ++ rest) = (v % 256, rest) := rfl

theorem read_u32_write (v : Nat) (rest : List Nat) :
    read_u32 (write_u32 v ++ rest) = (v % 2 ^ 32, rest) := by
  simp only [write_u32, List.cons_append, List.nil_append, read_u32, Prod.mk.injEq, and_true]
  omega

theorem read_u64_write (v : Nat) (rest : List Nat) :
    read_u64 (write_u64 v ++ rest) = (v % 2 ^ 64, rest) := by
  simp only [write_u64, List.cons_append, List.nil_append, read_u64, Prod.mk.injEq, and_true]
  omega

theorem read_f32_write (v : Nat) (rest : List Nat) :
    read_f32 (write_f32 v ++ rest) = (v % 2 ^ 32, rest) := read_u32_write v rest

theorem read_bool_write (b : Bool) (rest : List Nat) :
    read_bool (write_bool b ++ rest) = (b, rest) := by cases b <;> rfl

theorem read_vec_write (v : Vec) (rest : List Nat) :
    read_vec (write_vec v ++ rest) = (v.trunc32, rest) := by
  simp only [write_vec, List.append_assoc, read_vec, read_f32_write, Vec.trunc32]

theorem read_rot_mat_write (m : RotMat) (rest : List Nat) :
    read_rot_mat (write_rot_mat m ++ rest) = (m.trunc32, rest) := by
  simp only [write_rot_mat, List.append_assoc, read_rot_mat, read_vec_write, RotMat.trunc32]

end RLViser

namespace RLViser

theorem pad_read_write (p : BoostPadInfo) (rest : List Nat) (h : p.WF) :
    BoostPadInfo.read (BoostPadInfo.write p ++ rest) = (p, rest) := by
  obtain ⟨isActive, cooldown, ⟨px, py, pz⟩, isBig⟩ := p
  simp only [BoostPadInfo.WF, Vec.WF, WFu32] at h
  obtain ⟨h1, h2, h3, h4⟩ := h
  simp only [BoostPadInfo.write, BoostPadInfo.read, List.append_assoc,
    read_bool_write, read_f32_write, read_vec_write, Vec.trunc32, Prod.mk.injEq,
    BoostPadInfo.mk.injEq, Vec.mk.injEq, and_true, true_and]
  refine ⟨?_, ?_, ?_, ?_⟩ <;> omega

end RLViser

namespace RLViser

theorem ball_read_write (b : BallStateInfo) (rest : List Nat) (h : b.WF) :
    BallStateInfo.read (BallStateInfo.write b ++ rest) = (b, rest) := by
  obtain ⟨⟨px, py, pz⟩, ⟨⟨fx, fy, fz⟩, ⟨rx, ry, rz⟩, ⟨ux, uy, uz⟩⟩,
    ⟨vx, vy, vz⟩, ⟨ax, ay, az⟩, ⟨hy, hc, ht⟩⟩ := b
  simp only [BallStateInfo.WF, Vec.WF, RotMat.WF, WFu32] at h
  simp only [BallStateInfo.write, BallStateInfo.read, List.append_assoc,
    read_vec_write, read_rot_mat_write, read_f32_write, Vec.trunc32, RotMat.trunc32,
    Prod.mk.injEq, BallStateInfo.mk.injEq, Vec.mk.injEq, RotMat.mk.injEq,
    HeatseekerInfo.mk.injEq, and_true, true_and]
  omega

end RLViser

namespace RLViser

theorem car_read_write (c : CarInfo) (rest : List Nat) (h : c.WF) :
    CarInfo.read (CarInfo.write c ++ rest) = (c, rest) := by
  obtain ⟨id, team,
    ⟨⟨p1, p2, p3⟩, ⟨⟨r1, r2, r3⟩, ⟨r4, r5, r6⟩, ⟨r7, r8, r9⟩⟩, ⟨v1, v2, v3⟩,
     ⟨a1, a2, a3⟩, iog, w0, w1, w2, w3, hj, hdj, hf, ⟨f1, f2, f3⟩, jt, ft, ifl, ij,
     at1, atsj, bo, tsb, ib, bt, iss, sst, hbv, iaf, aft, afts,
     ⟨wch, ⟨n1, n2, n3⟩⟩, ⟨cid, ccd⟩, idm, drt,
     ⟨bhv, ⟨q1, q2, q3⟩, ⟨q4, q5, q6⟩, ⟨q7, q8, q9⟩, t1, t2⟩,
     ⟨c1, c2, c3, c4, c5, cb, cj, ch⟩⟩,
    ⟨⟨hs1, hs2, hs3⟩, ⟨hp1, hp2, hp3⟩, ⟨fwr, fws, ⟨fc1, fc2, fc3⟩⟩,
     ⟨bwr, bws, ⟨bc1, bc2, bc3⟩⟩, dz⟩⟩ := c
  simp only [CarInfo.WF, CarState.WF, CarConfig.WF, Vec.WF, RotMat.WF, WFu32,
    WFu64, WFu8] at h
  simp only [CarInfo.write, CarInfo.read, List.append_assoc, read_u32_write,
    read_u8_write, read_vec_write, read_rot_mat_write, read_bool_write,
    read_f32_write, read_u64_write, Vec.trunc32, RotMat.trunc32, Prod.mk.injEq,
    CarInfo.mk.injEq, CarState.mk.injEq, CarConfig.mk.injEq, Vec.mk.injEq,
    RotMat.mk.injEq, WorldContact.mk.injEq, CarContact.mk.injEq,
    BallHitInfo.mk.injEq, CarControls.mk.injEq, WheelPairConfig.mk.injEq,
    and_true, true_and]
  omega

end RLViser

namespace RLViser

theorem read_pads_write (ps : List BoostPadInfo) (rest : List Nat)
    (h : ∀ p ∈ ps, p.WF) :
    GameState.read_pads ps.length ((ps.map BoostPadInfo.write).flatten ++ rest) =
      (ps, rest) := by
  induction ps with
  | nil => simp [GameState.read_pads]
  | cons p ps ih =>
      simp only [List.map_cons, List.flatten_cons, List.append_assoc,
        List.length_cons, GameState.read_pads,
        pad_read_write p _ (h p (List.mem_cons_self p ps)),
        ih (fun q hq => h q (List.mem_cons_of_mem p hq))]

theorem read_cars_write (cs : List CarInfo) (rest : List Nat)
    (h : ∀ c ∈ cs, c.WF) :
    GameState.read_cars cs.length ((cs.map CarInfo.write).flatten ++ rest) =
      (cs, rest) := by
  induction cs with
  | nil => simp [GameState.read_cars]
  | cons c cs ih =>
      simp only [List.map_cons, List.flatten_cons, List.append_assoc,
        List.length_cons, GameState.read_cars,
        car_read_write c _ (h c (List.mem_cons_self c cs)),
        ih (fun q hq => h q (List.mem_cons_of_mem c hq))]

theorem read_cars_write_nil (cs : List CarInfo) (h : ∀ c ∈ cs, c.WF) :
    GameState.read_cars cs.length ((cs.map CarInfo.write).flatten) = (cs, []) := by
  have := read_cars_write cs [] h
  simpa using this

theorem GameState.from_bytes_to_bytes (g : GameState) (h : g.WF) :
    GameState.from_bytes (GameState.to_bytes g) = g := by
  obtain ⟨tickCount, tickRate, gameMode, pads, cars, ball⟩ := g
  obtain ⟨h1, h2, h3, h4, h5, hball, hpads, hcars⟩ := h
  simp only [WFu64] at h1
  simp only [WFu32] at h2 h4 h5
  simp only [WFu8] at h3
  have e1 : tickCount % 2 ^ 64 = tickCount := Nat.mod_eq_of_lt h1
  have e2 : tickRate % 2 ^ 32 = tickRate := Nat.mod_eq_of_lt h2
  have e3 : gameMode % 256 = gameMode := Nat.mod_eq_of_lt h3
  have e4 : pads.length % 2 ^ 32 = pads.length := Nat.mod_eq_of_lt h4
  have e5 : cars.length % 2 ^ 32 = cars.length := Nat.mod_eq_of_lt h5
  simp only [GameState.to_bytes, GameState.from_bytes, List.append_assoc,
    read_u64_write, read_f32_write, read_u8_write, read_u32_write, e1, e2, e3,
    e4, e5, ball_read_write ball _ hball, read_pads_write pads _ hpads,
    read_cars_write_nil cars hcars]

end RLViser

namespace RLViser

/-! Length lemmas for the wire format. -/

theorem write_u8_length (v : Nat) : (write_u8 v).length = 1 := rfl

theorem write_u32_length (v : Nat) : (write_u32 v).length = 4 := rfl

theorem write_u64_length (v : Nat) : (write_u64 v).length = 8 := rfl

theorem write_f32_length (v : Nat) : (write_f32 v).length = 4 := rfl

theorem write_bool_length (b : Bool) : (write_bool b).length = 1 := rfl

theorem write_vec_length (v : Vec) : (write_vec v).length = 12 := rfl

theorem write_rot_mat_length (m : RotMat) : (write_rot_mat m).length = 36 := rfl

theorem pad_write_length (p : BoostPadInfo) :
    (BoostPadInfo.write p).length = 18 := rfl

theorem ball_write_length (b : BallStateInfo) :
    (BallStateInfo.write b).length = 84 := rfl

theorem car_write_length (c : CarInfo) : (CarInfo.write c).length = 316 := by
  simp only [CarInfo.write, List.length_append, write_u32_length, write_u8_length,
    write_vec_length, write_rot_mat_length, write_bool_length, write_f32_length,
    write_u64_length]

theorem pads_flatten_length (ps : List BoostPadInfo) :
    ((ps.map BoostPadInfo.write).flatten).length = ps.length * 18 := by
  induction ps with
  | nil => simp
  | cons p ps ih =>
      simp [List.flatten_cons, pad_write_length, ih]
      omega

theorem cars_flatten_length (cs : List CarInfo) :
    ((cs.map CarInfo.write).flatten).length = cs.length * 316 := by
  induction cs with
  | nil => simp
  | cons c cs ih =>
      simp [List.flatten_cons, car_write_length, ih]
      try omega

theorem GameState.to_bytes_length (g : GameState) :
    (GameState.to_bytes g).length =
      21 + 84 + g.pads.length * 18 + g.cars.length * 316 := by
  simp only [GameState.to_bytes, List.length_append, pads_flatten_length,
    cars_flatten_length, ball_write_length, write_u64_length,
    write_f32_length, write_u32_length, write_u8_length]
  try omega

end RLViser

namespace RLViser

theorem GameState.get_num_bytes_to_bytes (g : GameState)
    (h4 : g.pads.length < 2 ^ 32) (h5 : g.cars.length < 2 ^ 32) :
    GameState.get_num_bytes (GameState.to_bytes g) =
      21 + 84 + g.pads.length * 18 + g.cars.length * 316 := by
  have e4 : g.pads.length % 2 ^ 32 = g.pads.length := Nat.mod_eq_of_lt h4
  have e5 : g.cars.length % 2 ^ 32 = g.cars.length := Nat.mod_eq_of_lt h5
  unfold GameState.get_num_bytes
  rw [if_neg]
  · simp only [GameState.to_bytes, List.append_assoc, read_u64_write,
      read_f32_write, read_u8_write, read_u32_write, e4, e5]
    norm_num [GameState.MIN_NUM_BYTES, GameState.BALL_STATE_BYTES,
      BoostPadInfo.NUM_BYTES, CarInfo.NUM_BYTES]
  · rw [GameState.to_bytes_length]
    norm_num [GameState.MIN_NUM_BYTES]
    omega

/-- C1: the GameState wire round trip is the identity.  Encoding then decoding
reproduces every field of a GameState whose counts and field values fit their
wire types (floats are carried as bit patterns, so bit-exactness is literal);
consequently decoding any datagram the encoder emits (21-byte header, ball
block, pad records, car records, in the encoder's layout) and re-encoding it
returns the same byte sequence. -/
theorem c1_gamestate_wire_roundtrip :
    (∀ g : GameState, g.WF →
      GameState.from_bytes (GameState.to_bytes g) = g) ∧
    (∀ b : List Nat, (∃ g : GameState, g.WF ∧ GameState.to_bytes g = b) →
      GameState.to_bytes (GameState.from_bytes b) = b) := by
  constructor
  · exact fun g h => GameState.from_bytes_to_bytes g h
  · rintro b ⟨g, hg, rfl⟩
    rw [GameState.from_bytes_to_bytes g hg]

set_option maxRecDepth 10000 in
theorem c1_gamestate_wire_roundtrip_witness :
    GameState.from_bytes (GameState.to_bytes sampleGameState) = sampleGameState ∧
    GameState.to_bytes (GameState.from_bytes (GameState.to_bytes sampleGameState)) =
      GameState.to_bytes sampleGameState :=
  ⟨c1_gamestate_wire_roundtrip.1 sampleGameState (by decide),
   c1_gamestate_wire_roundtrip.2 (GameState.to_bytes sampleGameState)
     ⟨sampleGameState, by decide, rfl⟩⟩

set_option maxRecDepth 10000 in
/-- C2 counterexample: a concrete per-car wire record occupies 316 bytes, not
197 as claimed. -/
theorem c2_car_record_size_counterexample :
    (CarInfo.write sampleCar).length ≠ 197 := by decide

/-- C2 (amended): each per-car record occupies exactly CarInfo::NUM_BYTES =
316 bytes, and the total datagram size computed from the header equals
21 (header) + 84 (ball block) + numPads × 18 + numCars × 316 bytes. -/
theorem c2_car_record_and_datagram_size :
    (∀ c : CarInfo,
      (CarInfo.write c).length = CarInfo.NUM_BYTES ∧
      (CarInfo.write c).length = 316) ∧
    (∀ g : GameState, g.WF →
      (GameState.to_bytes g).length =
        21 + 84 + g.pads.length * 18 + g.cars.length * 316 ∧
      GameState.get_num_bytes (GameState.to_bytes g) =
        21 + 84 + g.pads.length * 18 + g.cars.length * 316) := by
  constructor
  · intro c
    have h := car_write_length c
    constructor
    · rw [h]; norm_num [CarInfo.NUM_BYTES]
    · exact h
  · intro g hg
    exact ⟨GameState.to_bytes_length g,
      GameState.get_num_bytes_to_bytes g hg.2.2.2.1 hg.2.2.2.2.1⟩

set_option maxRecDepth 10000 in
theorem c2_car_record_and_datagram_size_witness :
    ((CarInfo.write sampleCar).length = CarInfo.NUM_BYTES ∧
      (CarInfo.write sampleCar).length = 316) ∧
    ((GameState.to_bytes sampleGameState).length =
        21 + 84 + sampleGameState.pads.length * 18 +
          sampleGameState.cars.length * 316 ∧
      GameState.get_num_bytes (GameState.to_bytes sampleGameState) =
        21 + 84 + sampleGameState.pads.length * 18 +
          sampleGameState.cars.length * 316) :=
  ⟨c2_car_record_and_datagram_size.1 sampleCar,
   c2_car_record_and_datagram_size.2 sampleGameState (by decide)⟩

end RLViser

namespace RocketSim

namespace LinearPieceCurve

/-! Behaviour of the GetOutput search loop. -/

theorem getOutputLoop_end (c : LinearPieceCurve) (x : ℚ) (i : Nat)
    (h : ¬ i < c.numPoints) :
    getOutputLoop c x i = (c.pt (c.numPoints - 1)).output := by
  rw [getOutputLoop]
  simp [h]

theorem getOutputLoop_skip (c : LinearPieceCurve) (x : ℚ) (i : Nat)
    (h : i < c.numPoints) (hx : ¬ x < (c.pt i).input) :
    getOutputLoop c x i = getOutputLoop c x (i + 1) := by
  conv_lhs => rw [getOutputLoop]
  simp [h, hx]

theorem getOutputLoop_hit (c : LinearPieceCurve) (x : ℚ) (i : Nat)
    (h : i < c.numPoints) (hx : x < (c.pt i).input) :
    getOutputLoop c x i = segmentOutput (c.pt (i - 1)) (c.pt i) x := by
  rw [getOutputLoop]
  simp [h, hx]

theorem getOutputLoop_all_le (c : LinearPieceCurve) (x : ℚ) :
    ∀ i, (∀ j, i ≤ j → j < c.numPoints → (c.pt j).input ≤ x) →
      getOutputLoop c x i = (c.pt (c.numPoints - 1)).output := by
  have H : ∀ n i, c.numPoints - i ≤ n →
      (∀ j, i ≤ j → j < c.numPoints → (c.pt j).input ≤ x) →
      getOutputLoop c x i = (c.pt (c.numPoints - 1)).output := by
    intro n
    induction n with
    | zero =>
        intro i hle _hall
        exact getOutputLoop_end c x i (by omega)
    | succ n ih =>
        intro i hle hall
        by_cases h : i < c.numPoints
        · rw [getOutputLoop_skip c x i h (not_lt.mpr (hall i le_rfl h))]
          exact ih (i + 1) (by omega) (fun j hj1 hj2 => hall j (by omega) hj2)
        · exact getOutputLoop_end c x i h
  exact fun i hall => H (c.numPoints - i) i le_rfl hall

theorem getOutputLoop_first_hit (c : LinearPieceCurve) (x : ℚ) :
    ∀ i k, i ≤ k → k < c.numPoints →
      (∀ j, i ≤ j → j < k → (c.pt j).input ≤ x) → x < (c.pt k).input →
      getOutputLoop c x i = segmentOutput (c.pt (k - 1)) (c.pt k) x := by
  have H : ∀ n i k, k - i ≤ n → i ≤ k → k < c.numPoints →
      (∀ j, i ≤ j → j < k → (c.pt j).input ≤ x) → x < (c.pt k).input →
      getOutputLoop c x i = segmentOutput (c.pt (k - 1)) (c.pt k) x := by
    intro n
    induction n with
    | zero =>
        intro i k hn hik hk _hall hx
        have hik' : i = k := by omega
        subst hik'
        exact getOutputLoop_hit c x i hk hx
    | succ n ih =>
        intro i k hn hik hk hall hx
        by_cases hik' : i = k
        · subst hik'
          exact getOutputLoop_hit c x i hk hx
        · have hi : i < c.numPoints := by omega
          rw [getOutputLoop_skip c x i hi
            (not_lt.mpr (hall i le_rfl (by omega)))]
          exact ih (i + 1) k (by omega) (by omega) hk
            (fun j hj1 hj2 => hall j (by omega) hj2) hx
  exact fun i k hik hk hall hx => H (k - i) i k le_rfl hik hk hall hx

end LinearPieceCurve

end RocketSim

namespace RocketSim

namespace LinearPieceCurve

/-- C3: GetOutput of a piecewise linear curve returns the default when the
curve is empty; for a curve with strictly ascending control points it clamps
inputs at or below the first point to the first output and inputs at or above
the last point to the last output, and linearly interpolates inputs strictly
inside a segment; the degenerate zero-width-segment guard returns the left
point's output. -/
theorem c3_curve_get_output (c : LinearPieceCurve) (x d : ℚ)
    (hasc : ∀ i j, i < j → j < c.numPoints → (c.pt i).input < (c.pt j).input) :
    (c.numPoints = 0 → GetOutput c x d = d) ∧
    (c.numPoints ≠ 0 → x ≤ (c.pt 0).input → GetOutput c x d = (c.pt 0).output) ∧
    (c.numPoints ≠ 0 → (c.pt (c.numPoints - 1)).input ≤ x →
      GetOutput c x d = (c.pt (c.numPoints - 1)).output) ∧
    (∀ i, 0 < i → i < c.numPoints → (c.pt (i - 1)).input < x →
      x < (c.pt i).input →
      GetOutput c x d = (c.pt (i - 1)).output +
        ((c.pt i).output - (c.pt (i - 1)).output) *
          ((x - (c.pt (i - 1)).input) /
            ((c.pt i).input - (c.pt (i - 1)).input))) ∧
    (∀ before after y, after.input = before.input →
      segmentOutput before after y = before.output) := by
  refine ⟨?_, ?_, ?_, ?_, ?_⟩
  · intro h0
    simp [GetOutput, h0]
  · intro h0 hle
    simp [GetOutput, h0, hle]
  · intro h0 hge
    by_cases hle : x ≤ (c.pt 0).input
    · have h1 : c.numPoints = 1 := by
        by_contra hne
        have h2 : 0 < c.numPoints - 1 := by omega
        have := hasc 0 (c.numPoints - 1) h2 (by omega)
        linarith
      simp [GetOutput, h0, hle, h1]
    · unfold GetOutput
      rw [if_neg h0, if_neg hle]
      apply getOutputLoop_all_le
      intro j hj1 hj2
      rcases eq_or_lt_of_le (show j ≤ c.numPoints - 1 by omega) with h | h
      · rw [h]; exact hge
      · exact le_trans (le_of_lt (hasc j (c.numPoints - 1) h (by omega))) hge
  · intro i hi0 hin hlt hgt
    have hle : ¬ x ≤ (c.pt 0).input := by
      rcases Nat.eq_or_lt_of_le (Nat.one_le_iff_ne_zero.mpr (by omega) : 1 ≤ i)
        with h | h
      · push_neg
        have : i - 1 = 0 := by omega
        rw [this] at hlt
        exact hlt
      · push_neg
        have := hasc 0 (i - 1) (by omega) (by omega)
        linarith
    unfold GetOutput
    rw [if_neg (by omega), if_neg hle]
    rw [getOutputLoop_first_hit c x 1 i (by omega) hin ?_ hgt]
    · unfold segmentOutput
      have hdx : ¬ (c.pt i).input - (c.pt (i - 1)).input ≤ 0 := by linarith
      simp only [hdx, if_false]
    · intro j hj1 hj2
      rcases eq_or_lt_of_le (show j ≤ i - 1 by omega) with h | h
      · rw [h]; exact le_of_lt hlt
      · exact le_of_lt (lt_trans (hasc j (i - 1) h (by omega)) hlt)
  · intro before after y hw
    unfold segmentOutput
    simp [hw]

end LinearPieceCurve

end RocketSim

namespace RocketSim

namespace LinearPieceCurve

theorem c3_curve_get_output_witness :
    GetOutput (ofInitList [((0 : ℚ), (1 : ℚ)), (2, 5)]) 3 7 =
      ((ofInitList [((0 : ℚ), (1 : ℚ)), (2, 5)]).pt
        ((ofInitList [((0 : ℚ), (1 : ℚ)), (2, 5)]).numPoints - 1)).output :=
  (c3_curve_get_output (ofInitList [((0 : ℚ), (1 : ℚ)), (2, 5)]) 3 7 (by
    intro i j hij hj
    have hn : (ofInitList [((0 : ℚ), (1 : ℚ)), (2, 5)]).numPoints = 2 := by decide
    rw [hn] at hj
    have hi : i = 0 := by omega
    have hj1 : j = 1 := by omega
    subst hi
    subst hj1
    decide)).2.2.1 (by decide) (by decide)

theorem curve_eq_of (a b : LinearPieceCurve) (hp : a.points = b.points)
    (hn : a.numPoints = b.numPoints) : a = b := by
  cases a
  cases b
  simp_all

theorem ofInitList_foldl (init : List (ℚ × ℚ)) :
    ∀ c : LinearPieceCurve, c.numPoints = c.points.length →
      c.numPoints ≤ MAX_POINTS →
      (init.foldl
        (fun c p =>
          if c.numPoints < MAX_POINTS then
            { points := c.points ++ [⟨p.1, p.2⟩], numPoints := c.numPoints + 1 }
          else c) c).points =
        c.points ++ ((init.take (MAX_POINTS - c.numPoints)).map
          (fun p => (⟨p.1, p.2⟩ : Point))) ∧
      (init.foldl
        (fun c p =>
          if c.numPoints < MAX_POINTS then
            { points := c.points ++ [⟨p.1, p.2⟩], numPoints := c.numPoints + 1 }
          else c) c).numPoints = min (c.numPoints + init.length) MAX_POINTS := by
  induction init with
  | nil =>
      intro c _h1 h2
      constructor
      · simp
      · simp only [List.foldl_nil, List.length_nil]
        omega
  | cons p init ih =>
      intro c h1 h2
      simp only [List.foldl_cons, List.length_cons]
      by_cases hc : c.numPoints < MAX_POINTS
      · rw [if_pos hc]
        obtain ⟨ih1, ih2⟩ :=
          ih ⟨c.points ++ [⟨p.1, p.2⟩], c.numPoints + 1⟩
            (by simp [h1]) (by simp; omega)
        constructor
        · rw [ih1]
          obtain ⟨m, hm⟩ : ∃ m, MAX_POINTS - c.numPoints = m + 1 :=
            ⟨MAX_POINTS - c.numPoints - 1, by omega⟩
          have hm' : MAX_POINTS - (c.numPoints + 1) = m := by omega
          rw [hm, List.take_succ_cons, List.map_cons]
          simp [hm', List.append_assoc]
        · rw [ih2]
          dsimp only
          omega
      · rw [if_neg hc]
        have hc8 : c.numPoints = MAX_POINTS := by omega
        obtain ⟨ih1, ih2⟩ := ih c h1 h2
        constructor
        · rw [ih1, hc8]
          simp
        · rw [ih2]
          omega

/-- C9: the initializer-list constructor stores at most MAX_POINTS = 8 control
points: exactly the first 8 pairs of the initializer list are kept and the
rest are silently dropped, so numPoints = points.length ≤ 8 holds for every
constructed curve and every index GetOutput reads (each below numPoints) is
within the stored points. -/
theorem c9_ofInitList_caps_at_max_points (init : List (ℚ × ℚ)) :
    (ofInitList init).numPoints = min init.length MAX_POINTS ∧
    (ofInitList init).numPoints ≤ MAX_POINTS ∧
    (ofInitList init).points =
      (init.take MAX_POINTS).map (fun p => (⟨p.1, p.2⟩ : Point)) ∧
    ofInitList init = ofInitList (init.take MAX_POINTS) ∧
    (ofInitList init).numPoints = (ofInitList init).points.length ∧
    (∀ i, i < (ofInitList init).numPoints →
      i < (ofInitList init).points.length) := by
  obtain ⟨h1, h2⟩ := ofInitList_foldl init ⟨[], 0⟩ rfl (Nat.zero_le _)
  obtain ⟨g1, g2⟩ := ofInitList_foldl (init.take MAX_POINTS) ⟨[], 0⟩ rfl
    (Nat.zero_le _)
  simp only [List.nil_append, Nat.sub_zero, Nat.zero_add] at h1 h2 g1 g2
  have hp : (ofInitList init).points =
      (init.take MAX_POINTS).map (fun p => (⟨p.1, p.2⟩ : Point)) := by
    rw [ofInitList]
    exact h1
  have hn : (ofInitList init).numPoints = min init.length MAX_POINTS := by
    rw [ofInitList, h2]
  have hp' : (ofInitList (init.take MAX_POINTS)).points =
      (init.take MAX_POINTS).map (fun p => (⟨p.1, p.2⟩ : Point)) := by
    rw [ofInitList]
    rw [g1, List.take_take]
    simp
  have hn' : (ofInitList (init.take MAX_POINTS)).numPoints =
      min init.length MAX_POINTS := by
    rw [ofInitList, g2, List.length_take]
    omega
  refine ⟨hn, by omega, hp, ?_, ?_, ?_⟩
  · exact curve_eq_of _ _ (by rw [hp, hp']) (by rw [hn, hn'])
  · rw [hn, hp, List.length_map, List.length_take]
    omega
  · intro i hi
    rw [hp, List.length_map, List.length_take]
    rw [hn] at hi
    omega

end LinearPieceCurve

end RocketSim

namespace RocketSim

theorem wrapNormalize_mem_Icc {K : Type} [LinearOrderedField K] [FloorRing K]
    (val minmax : K) (h : 0 < minmax) :
    Math.WrapNormalizeFloat val minmax ∈ Set.Icc (-minmax) minmax := by
  have hm2 : (0 : K) < minmax * 2 := by linarith
  have hne : minmax * 2 ≠ 0 := ne_of_gt hm2
  have hr : fmod val (minmax * 2) =
      (minmax * 2) * (val / (minmax * 2) - (truncI (val / (minmax * 2)) : K)) := by
    rw [fmod, mul_sub, mul_div_cancel₀ val hne]
  have hbounds : -(minmax * 2) < fmod val (minmax * 2) ∧
      fmod val (minmax * 2) < minmax * 2 := by
    rw [hr, truncI]
    by_cases h0 : 0 ≤ val / (minmax * 2)
    · rw [if_pos h0]
      have h1 : (0 : K) ≤ val / (minmax * 2) - ⌊val / (minmax * 2)⌋ :=
        sub_nonneg.mpr (Int.floor_le _)
      have h2 : val / (minmax * 2) - ⌊val / (minmax * 2)⌋ < 1 := by
        have := Int.lt_floor_add_one (val / (minmax * 2))
        linarith
      constructor
      · nlinarith
      · nlinarith
    · rw [if_neg h0]
      have h1 : val / (minmax * 2) - ⌈val / (minmax * 2)⌉ ≤ 0 :=
        sub_nonpos.mpr (Int.le_ceil _)
      have h2 : (-1 : K) < val / (minmax * 2) - ⌈val / (minmax * 2)⌉ := by
        have := Int.ceil_lt_add_one (val / (minmax * 2))
        linarith
      constructor
      · nlinarith
      · nlinarith
  obtain ⟨hb1, hb2⟩ := hbounds
  rw [Math.WrapNormalizeFloat]
  simp only [Set.mem_Icc]
  split_ifs with h1 h2
  · constructor <;> linarith
  · constructor <;> linarith
  · constructor <;> linarith

/-- C4 (amended): for every input, WrapNormalizeFloat(x, π) returns a value in
the closed interval [-π, π] (the left endpoint is attained, so the half-open
interval of the original claim fails only there). -/
theorem c4_wrap_normalize_range (x : ℝ) :
    Math.WrapNormalizeFloat x Real.pi ∈ Set.Icc (-Real.pi) Real.pi :=
  wrapNormalize_mem_Icc x Real.pi Real.pi_pos

/-- C4 counterexample: at x = -π the result is exactly -π, which is not in the
half-open interval (-π, π]. -/
theorem c4_wrap_normalize_counterexample :
    Math.WrapNormalizeFloat (-Real.pi) Real.pi = -Real.pi ∧
    Math.WrapNormalizeFloat (-Real.pi) Real.pi ∉ Set.Ioc (-Real.pi) Real.pi := by
  have hpi := Real.pi_pos
  have hdiv : -Real.pi / (Real.pi * 2) = -(1 / 2 : ℝ) := by
    rw [div_eq_iff (by positivity : Real.pi * 2 ≠ 0)]
    ring
  have hceil : ⌈(-(1 / 2 : ℝ))⌉ = 0 := by
    rw [Int.ceil_eq_zero_iff]
    constructor <;> norm_num
  have hfmod : fmod (-Real.pi) (Real.pi * 2) = -Real.pi := by
    rw [fmod, truncI, hdiv, if_neg (by norm_num), hceil]
    push_cast
    ring
  have hres : Math.WrapNormalizeFloat (-Real.pi) Real.pi = -Real.pi := by
    rw [Math.WrapNormalizeFloat]
    simp only [hfmod]
    rw [if_neg (by linarith), if_neg (by linarith)]
  refine ⟨hres, ?_⟩
  rw [hres]
  simp [Set.mem_Ioc]

end RocketSim

namespace RocketSim

/-- C5 (amended): RoundAngleUE3 quantizes the yaw and pitch of its argument
(with roll equal to 0) to integer multiples of (π/(2^15))·4 = π/2^13; the
original claim's quantum (π/(2^13))·4 is four times too coarse. -/
theorem c5_round_angle_quantized (ang : Angle) (_h : ang.roll = 0) :
    ∃ ky kp : ℤ,
      (Math.RoundAngleUE3 ang).yaw = (ky : ℝ) * (Real.pi / 2 ^ 15 * 4) ∧
      (Math.RoundAngleUE3 ang).pitch = (kp : ℝ) * (Real.pi / 2 ^ 15 * 4) := by
  refine ⟨(Int.fdiv (truncI (ang.yaw * (2 ^ 15 / Real.pi))) 4).emod 0x4000,
    (Int.fdiv (truncI (ang.pitch * (2 ^ 15 / Real.pi))) 4).emod 0x4000, ?_, ?_⟩ <;>
  · simp only [Math.RoundAngleUE3]
    rw [one_div_div]

theorem c5_round_angle_quantized_witness :
    (Angle.mk 0 0 0).roll = 0 ∧
    ∃ ky kp : ℤ,
      (Math.RoundAngleUE3 ⟨0, 0, 0⟩).yaw = (ky : ℝ) * (Real.pi / 2 ^ 15 * 4) ∧
      (Math.RoundAngleUE3 ⟨0, 0, 0⟩).pitch = (kp : ℝ) * (Real.pi / 2 ^ 15 * 4) :=
  ⟨rfl, c5_round_angle_quantized ⟨0, 0, 0⟩ rfl⟩

/-- C5 counterexample: for input yaw = π/2^13 (roll = 0) the returned yaw is
π/2^13 itself, which is not an integer multiple of (π/(2^13))·4. -/
theorem c5_round_angle_counterexample :
    ¬ ∃ k : ℤ, (Math.RoundAngleUE3 ⟨Real.pi / 2 ^ 13, 0, 0⟩).yaw =
        (k : ℝ) * (Real.pi / 2 ^ 13 * 4) := by
  have hpi := Real.pi_pos
  have harg : Real.pi / 2 ^ 13 * (2 ^ 15 / Real.pi) = 4 := by
    field_simp
    ring
  have htr : truncI (4 : ℝ) = 4 := by
    rw [truncI, if_pos (by norm_num)]
    norm_num
  have hy : (Math.RoundAngleUE3 ⟨Real.pi / 2 ^ 13, 0, 0⟩).yaw = Real.pi / 2 ^ 13 := by
    simp only [Math.RoundAngleUE3, harg, htr]
    norm_num
    ring
  rw [hy]
  rintro ⟨k, hk⟩
  have hk2 : Real.pi * 1 = Real.pi * ((k : ℝ) * 4) := by
    have h8 : (2 : ℝ) ^ 13 ≠ 0 := by norm_num
    field_simp at hk
    linarith
  have hk3 : (1 : ℝ) = (k : ℝ) * 4 := mul_left_cancel₀ Real.pi_ne_zero hk2
  have hk4 : (1 : ℤ) = k * 4 := by exact_mod_cast hk3
  omega

/-- C6: for all integers lo < hi and any seed, RandInt(lo, hi, seed) returns a
value v with lo ≤ v < hi, whatever the engine draw the seed produces: the
lower bound is inclusive and the upper bound is exclusive. -/
theorem c6_randint_bounds (min max seed : ℤ) (engineDraw : ℕ) (h : min < max) :
    min ≤ Math.RandInt min max seed engineDraw ∧
    Math.RandInt min max seed engineDraw < max := by
  unfold Math.RandInt
  have hpos : 0 < (max - min).toNat := by omega
  have hmod : engineDraw % (max - min).toNat < (max - min).toNat :=
    Nat.mod_lt _ hpos
  have hcast : ((engineDraw % (max - min).toNat : ℕ) : ℤ) < ((max - min).toNat : ℤ) := by
    exact_mod_cast hmod
  have hnonneg : (0 : ℤ) ≤ ((engineDraw % (max - min).toNat : ℕ) : ℤ) :=
    Int.ofNat_nonneg _
  omega

theorem c6_randint_bounds_witness :
    (3 : ℤ) < 10 ∧
    ((3 : ℤ) ≤ Math.RandInt 3 10 (-1) 123 ∧ Math.RandInt 3 10 (-1) 123 < 10) :=
  ⟨by decide, c6_randint_bounds 3 10 (-1) 123 (by decide)⟩

end RocketSim

namespace Bindings

/-- C7: constructing an arena with a tick rate outside [15, 120] throws
std::invalid_argument before any arena object is constructed (the error result
carries no arena), and for a tick rate within [15, 120] this check does not
fail. -/
theorem c7_tick_rate_validation (tick_rate : ℚ) :
    ((tick_rate < 15 ∨ tick_rate > 120) →
      ArenaWrapper.construct tick_rate =
        Except.error "tick_rate must be between 15 and 120") ∧
    (15 ≤ tick_rate → tick_rate ≤ 120 →
      ArenaWrapper.construct tick_rate = Except.ok tick_rate) := by
  unfold ArenaWrapper.construct
  constructor
  · intro h
    rw [if_pos h]
  · intro h1 h2
    rw [if_neg]
    push_neg
    exact ⟨h1, h2⟩

theorem c7_tick_rate_validation_witness :
    (ArenaWrapper.construct 10 =
      Except.error "tick_rate must be between 15 and 120") ∧
    ArenaWrapper.construct 60 = Except.ok 60 :=
  ⟨(c7_tick_rate_validation 10).1 (Or.inl (by norm_num)),
   (c7_tick_rate_validation 60).2 (by norm_num) (by norm_num)⟩

theorem GetCar_eq_none (cars : List Car) (id : Nat)
    (h : ∀ c ∈ cars, c.id ≠ id) : Arena.GetCar cars id = none := by
  unfold Arena.GetCar
  rw [List.find?_eq_none]
  intro c hc
  simpa using h c hc

theorem GetCar_eq_some (id : Nat) (car : Car) :
    ∀ cars : List Car, car ∈ cars → car.id = id → (cars.map Car.id).Nodup →
      Arena.GetCar cars id = some car := by
  intro cars
  induction cars with
  | nil => intro h _ _; cases h
  | cons c cs ih =>
      intro hmem hid hnd
      rw [List.map_cons, List.nodup_cons] at hnd
      unfold Arena.GetCar
      by_cases hc : c.id = id
      · rw [List.find?_cons_of_pos _ (by simpa using hc)]
        rcases List.mem_cons.mp hmem with h | h
        · rw [h]
        · exact absurd
            (by
              rw [hc, ← hid]
              exact List.mem_map_of_mem Car.id h) hnd.1
      · rw [List.find?_cons_of_neg _ (by simpa using hc)]
        have hmem' : car ∈ cs := by
          rcases List.mem_cons.mp hmem with h | h
          · exact absurd (h ▸ hid) hc
          · exact h
        exact ih hmem' hid hnd.2

/-- C8: for a car id not present in the arena, the remove_car binding throws
(producing no new state, so the car set is untouched) while get_car_from_id
returns the caller-provided default; for an id that is present (ids being
unique per §8 invariant 4), get_car_from_id returns that car. -/
theorem c8_car_lookup (st : ArenaState) (id : Nat) (d : Option Car) :
    ((∀ c ∈ st.cars, c.id ≠ id) →
      ArenaWrapper.remove_car st id =
        Except.error ("No car with id " ++ toString id) ∧
      ArenaWrapper.get_car_from_id st id d = d) ∧
    (∀ car, car ∈ st.cars → car.id = id → (st.cars.map Car.id).Nodup →
      ArenaWrapper.get_car_from_id st id d = some car) := by
  constructor
  · intro h
    have hnone := GetCar_eq_none st.cars id h
    constructor
    · unfold ArenaWrapper.remove_car
      rw [hnone]
    · unfold ArenaWrapper.get_car_from_id
      rw [hnone]
  · intro car hmem hid hnd
    have hsome := GetCar_eq_some id car st.cars hmem hid hnd
    unfold ArenaWrapper.get_car_from_id
    rw [hsome]

theorem c8_car_lookup_witness :
    (ArenaWrapper.remove_car ⟨[⟨5, 0⟩], [5]⟩ 9 =
        Except.error ("No car with id " ++ toString 9) ∧
      ArenaWrapper.get_car_from_id ⟨[⟨5, 0⟩], [5]⟩ 9 none = none) ∧
    ArenaWrapper.get_car_from_id ⟨[⟨5, 0⟩], [5]⟩ 5 none = some ⟨5, 0⟩ :=
  ⟨(c8_car_lookup ⟨[⟨5, 0⟩], [5]⟩ 9 none).1 (by decide),
   (c8_car_lookup ⟨[⟨5, 0⟩], [5]⟩ 5 none).2 ⟨5, 0⟩ (by decide) rfl (by decide)⟩

end Bindings

namespace Bindings

theorem validateArenas_ok (items : List MSItem) :
    ∀ seen, MSItem.other ∉ items → (arenaIds items).Nodup →
      (∀ id ∈ arenaIds items, id ∉ seen) →
      validateArenas items seen = Except.ok (arenaIds items) := by
  induction items with
  | nil => intro seen _ _ _; rfl
  | cons it rest ih =>
      intro seen hother hnd hseen
      cases it with
      | other => exact absurd (List.mem_cons_self _ _) hother
      | arena id =>
          have hother' : MSItem.other ∉ rest := fun h =>
            hother (List.mem_cons_of_mem _ h)
          have hids : arenaIds (MSItem.arena id :: rest) = id :: arenaIds rest := rfl
          rw [hids] at hnd hseen ⊢
          rw [List.nodup_cons] at hnd
          unfold validateArenas
          rw [if_neg (hseen id (List.mem_cons_self _ _))]
          rw [ih (id :: seen) hother' hnd.2 ?_]
          · rfl
          · intro j hj
            rw [List.mem_cons]
            rintro (rfl | hj')
            · exact hnd.1 hj
            · exact hseen j (List.mem_cons_of_mem _ hj) hj'

theorem validateArenas_error (items : List MSItem) :
    ∀ seen, (MSItem.other ∈ items ∨ ¬ (arenaIds items).Nodup ∨
        ∃ id ∈ arenaIds items, id ∈ seen) →
      ∃ e, validateArenas items seen = Except.error e := by
  induction items with
  | nil =>
      intro seen h
      rcases h with h | h | ⟨id, hid, _⟩
      · cases h
      · exact absurd List.nodup_nil h
      · cases hid
  | cons it rest ih =>
      intro seen h
      cases it with
      | other => exact ⟨_, rfl⟩
      | arena id =>
          have hids : arenaIds (MSItem.arena id :: rest) = id :: arenaIds rest := rfl
          rw [hids] at h
          unfold validateArenas
          by_cases hseen : id ∈ seen
          · rw [if_pos hseen]
            exact ⟨_, rfl⟩
          · rw [if_neg hseen]
            have h' : MSItem.other ∈ rest ∨ ¬ (arenaIds rest).Nodup ∨
                ∃ j ∈ arenaIds rest, j ∈ id :: seen := by
              rcases h with h | h | ⟨j, hj, hj'⟩
              · rcases List.mem_cons.mp h with h | h
                · cases h
                · exact Or.inl h
              · rw [List.nodup_cons] at h
                push_neg at h
                by_cases hmem : id ∈ arenaIds rest
                · exact Or.inr (Or.inr ⟨id, hmem, List.mem_cons_self _ _⟩)
                · exact Or.inr (Or.inl (h hmem))
              · rcases List.mem_cons.mp hj with rfl | hj2
                · exact absurd hj' hseen
                · exact Or.inr (Or.inr ⟨j, hj2, List.mem_cons_of_mem _ hj'⟩)
            obtain ⟨e, he⟩ := ih (id :: seen) h'
            rw [he]
            exact ⟨e, rfl⟩

theorem foldl_step_internal (ticks : Nat) :
    ∀ (ids : List Nat) (store : Nat → Nat), ids.Nodup →
      (∀ id ∈ ids, ids.foldl (step_internal ticks) store id = store id + ticks) ∧
      (∀ j, j ∉ ids → ids.foldl (step_internal ticks) store j = store j) := by
  intro ids
  induction ids with
  | nil => intro store _; exact ⟨fun id h => absurd h (List.not_mem_nil id), fun j _ => rfl⟩
  | cons id ids ih =>
      intro store hnd
      rw [List.nodup_cons] at hnd
      obtain ⟨ih1, ih2⟩ := ih (step_internal ticks store id) hnd.2
      constructor
      · intro i hi
        rw [List.foldl_cons]
        rcases List.mem_cons.mp hi with rfl | hi'
        · rw [ih2 i hnd.1]
          unfold step_internal
          simp
        · rw [ih1 i hi']
          unfold step_internal
          have : i ≠ id := fun h => hnd.1 (h ▸ hi')
          simp [this]
      · intro j hj
        rw [List.mem_cons] at hj
        push_neg at hj
        rw [List.foldl_cons, ih2 j hj.2]
        unfold step_internal
        simp [hj.1]

/-- C10: multi_step validates its entire argument list before stepping any
arena: a non-Arena element or a duplicate arena makes it throw with no new
tick counts produced (no arena advances), and when validation passes every
arena in the list is stepped exactly once by the requested number of ticks
while every other arena's count is untouched. -/
theorem c10_multi_step (items : List MSItem) (ticks : Nat) (store : Nat → Nat) :
    ((MSItem.other ∈ items ∨ ¬ (arenaIds items).Nodup) →
      ∃ e, multi_step items ticks store = Except.error e) ∧
    (MSItem.other ∉ items → (arenaIds items).Nodup →
      ∃ f, multi_step items ticks store = Except.ok f ∧
        (∀ id ∈ arenaIds items, f id = store id + ticks) ∧
        (∀ j, j ∉ arenaIds items → f j = store j)) := by
  constructor
  · intro h
    obtain ⟨e, he⟩ := validateArenas_error items []
      (by
        rcases h with h | h
        · exact Or.inl h
        · exact Or.inr (Or.inl h))
    unfold multi_step
    rw [he]
    exact ⟨e, rfl⟩
  · intro hother hnd
    have hok := validateArenas_ok items [] hother hnd
      (fun id _ h => (List.not_mem_nil id) h)
    unfold multi_step
    rw [hok]
    obtain ⟨h1, h2⟩ := foldl_step_internal ticks (arenaIds items) store hnd
    exact ⟨_, rfl, h1, h2⟩

theorem c10_multi_step_witness :
    (∃ e, multi_step [MSItem.arena 1, MSItem.arena 1] 3 (fun _ => 0) =
      Except.error e) ∧
    (∃ f, multi_step [MSItem.arena 1, MSItem.arena 2] 3 (fun _ => 0) =
        Except.ok f ∧
      (∀ id ∈ arenaIds [MSItem.arena 1, MSItem.arena 2],
        f id = (fun _ => 0) id + 3) ∧
      (∀ j, j ∉ arenaIds [MSItem.arena 1, MSItem.arena 2] → f j = (fun _ => 0) j)) :=
  ⟨(c10_multi_step [MSItem.arena 1, MSItem.arena 1] 3 (fun _ => 0)).1
    (Or.inr (by decide)),
   (c10_multi_step [MSItem.arena 1, MSItem.arena 2] 3 (fun _ => 0)).2
    (by decide) (by decide)⟩

end Bindings
